import Mathlib

/-!
Shallow embedding of `freeimage.py` (the bitmap-to-buffer bridging layer of
freeimage-py): the pixel-type registry, the strided view construction over
decoder-owned memory, the read/write pixel paths with channel reordering and
palette installation, the single-page and multi-page resource-handling
wrappers, and the metadata extraction loop.

Machine integers are modelled as `Nat` bit patterns (no arithmetic is ever
performed on pixel values, so overflow does not arise); fallible code returns
`Except Err`; the external FreeImage decoder calls (load, allocate, save,
lock, ...) are modelled by explicit environment records saying which calls
succeed, and resource usage is recorded as an event trace.
-/

namespace FreeImagePy

/-- The numpy element types that appear in the registry tables of
`freeimage.py` (`FI_TYPES.dtypes` / `FI_TYPES.fi_types`). -/
inductive Dtype where
  | uint8 | uint16 | int16 | uint32 | int32
  | float32 | float64 | complex128
  deriving DecidableEq, Repr

/-- `dtype.itemsize`: element width in bytes. -/
def Dtype.itemsize : Dtype → Nat
  | .uint8 => 1
  | .uint16 => 2
  | .int16 => 2
  | .uint32 => 4
  | .int32 => 4
  | .float32 => 4
  | .float64 => 8
  | .complex128 => 16

/-! FreeImage image-type constants (`class FI_TYPES`). -/

def FIT_UNKNOWN : Nat := 0
def FIT_BITMAP : Nat := 1
def FIT_UINT16 : Nat := 2
def FIT_INT16 : Nat := 3
def FIT_UINT32 : Nat := 4
def FIT_INT32 : Nat := 5
def FIT_FLOAT : Nat := 6
def FIT_DOUBLE : Nat := 7
def FIT_COMPLEX : Nat := 8
def FIT_RGB16 : Nat := 9
def FIT_RGBA16 : Nat := 10
def FIT_RGBF : Nat := 11
def FIT_RGBAF : Nat := 12

/-- `FI_TYPES.dtypes`: FreeImage type tag → numpy dtype. -/
def dtypes (fi_type : Nat) : Option Dtype :=
  if fi_type = FIT_BITMAP then some .uint8
  else if fi_type = FIT_UINT16 then some .uint16
  else if fi_type = FIT_INT16 then some .int16
  else if fi_type = FIT_UINT32 then some .uint32
  else if fi_type = FIT_INT32 then some .int32
  else if fi_type = FIT_FLOAT then some .float32
  else if fi_type = FIT_DOUBLE then some .float64
  else if fi_type = FIT_COMPLEX then some .complex128
  else if fi_type = FIT_RGB16 then some .uint16
  else if fi_type = FIT_RGBA16 then some .uint16
  else if fi_type = FIT_RGBF then some .float32
  else if fi_type = FIT_RGBAF then some .float32
  else none

/-- `FI_TYPES.fi_types`: (numpy dtype, channel count) → FreeImage type tag.
A dict lookup: exact-key match only, `none` (KeyError) otherwise. -/
def fi_types (d : Dtype) (n : Nat) : Option Nat :=
  if d = .uint8 ∧ n = 1 then some FIT_BITMAP
  else if d = .uint8 ∧ n = 3 then some FIT_BITMAP
  else if d = .uint8 ∧ n = 4 then some FIT_BITMAP
  else if d = .uint16 ∧ n = 1 then some FIT_UINT16
  else if d = .int16 ∧ n = 1 then some FIT_INT16
  else if d = .uint32 ∧ n = 1 then some FIT_UINT32
  else if d = .int32 ∧ n = 1 then some FIT_INT32
  else if d = .float32 ∧ n = 1 then some FIT_FLOAT
  else if d = .float64 ∧ n = 1 then some FIT_DOUBLE
  else if d = .complex128 ∧ n = 1 then some FIT_COMPLEX
  else if d = .uint16 ∧ n = 3 then some FIT_RGB16
  else if d = .uint16 ∧ n = 4 then some FIT_RGBA16
  else if d = .float32 ∧ n = 3 then some FIT_RGBF
  else if d = .float32 ∧ n = 4 then some FIT_RGBAF
  else none

/-- The key set of `FI_TYPES.fi_types`, as written in the source table. -/
def fi_types_keys : List (Dtype × Nat) :=
  [(.uint8, 1), (.uint8, 3), (.uint8, 4),
   (.uint16, 1), (.int16, 1), (.uint32, 1), (.int32, 1),
   (.float32, 1), (.float64, 1), (.complex128, 1),
   (.uint16, 3), (.uint16, 4), (.float32, 3), (.float32, 4)]

/-- `FI_TYPES.extra_dims`: FreeImage non-bitmap type tag → extra shape dims. -/
def extra_dims (fi_type : Nat) : Option (List Nat) :=
  if fi_type = FIT_UINT16 then some []
  else if fi_type = FIT_INT16 then some []
  else if fi_type = FIT_UINT32 then some []
  else if fi_type = FIT_INT32 then some []
  else if fi_type = FIT_FLOAT then some []
  else if fi_type = FIT_DOUBLE then some []
  else if fi_type = FIT_COMPLEX then some []
  else if fi_type = FIT_RGB16 then some [3]
  else if fi_type = FIT_RGBA16 then some [4]
  else if fi_type = FIT_RGBF then some [3]
  else if fi_type = FIT_RGBAF then some [4]
  else none

/-- Error taxonomy.  The Python code raises `ValueError` / `RuntimeError` /
`TypeError` with distinct messages; each distinct raise site is mapped to the
spec's error kind for that site (§7 of the spec), plus `indexError` for a
numpy out-of-range fancy-indexing failure and `keyError` for an unhandled
dict KeyError, which are not kinds of the spec's taxonomy. -/
inductive Err where
  | unknownFileType     -- 'Cannot determine type ...'
  | loadFailed          -- 'Could not load file ...' / 'Could not open ... as multi-page'
  | saveFailed          -- 'Could not save image properly.'
  | allocationError     -- 'Could not allocate image for storage' / 'Could not get image palette'
  | unsupportedFormat   -- 'Unknown image pixel type' / 'Cannot convert %d BPP bitmap' / 'Cannot write arrays of given type and shape.'
  | invalidShape        -- 'Only arrays with shape = (width, height) or (width, height, nchannels) are permitted'
  | incompatibleFormat  -- 'Cannot save image of this format to this file type'
  | indexError          -- numpy IndexError: channel index out of range
  | keyError            -- unhandled dict KeyError
  | decodeError         -- numpy.fromstring size-mismatch ValueError
  deriving DecidableEq, Repr

/-! ## Strided view construction (`_wrap_bitmap_bits_in_array`)

The byte-level layout of the numpy view built over the decoder's pixel
memory: offset from the base address and per-axis strides in bytes.  -/

/-- The (offset, strides) pair the view is built with: `offset` in bytes from
the bitmap's base address, `strides` in bytes per step along each axis. -/
structure ViewSpec where
  offset : Int
  strides : List Int
  deriving DecidableEq, Repr

/-- `_wrap_bitmap_bits_in_array`, layout part: given the decoder-reported
row pitch, the shape `[width, height]` or `[width, height, nchannels]` and
the element size, the strides and offset the numpy view is created with. -/
def _wrap_bitmap_bits_in_array (pitch : Nat) (shape : List Nat)
    (itemsize : Nat) : ViewSpec :=
  let height := shape[1]!
  let strides : List Int :=
    if shape.length = 3 then
      let nchannels := shape[2]!
      [(nchannels * itemsize : Nat), -(pitch : Int), (itemsize : Nat)]
    else
      [(itemsize : Nat), -(pitch : Int)]
  { offset := (pitch * (height - 1) : Nat), strides := strides }

/-- Byte address (relative to the bitmap base) of the first element of
logical row `j`: the view's offset plus `j` times the height-axis stride. -/
def rowAddress (v : ViewSpec) (j : Nat) : Int :=
  v.offset + j * v.strides[1]!

/-! ## The greyscale write palette (`_GREY_PALETTE`) -/

/-- `_GREY_PALETTE = numpy.arange(0, 0x01000000, 0x00010101, dtype=uint32)`:
the list of 32-bit palette entries. -/
def _GREY_PALETTE : List Nat :=
  (List.range ((0x01000000 + 0x00010101 - 1) / 0x00010101)).map
    (fun v => v * 0x00010101)

/-- The four bytes of a 32-bit palette entry, most significant first:
(reserved, red-ish, ..., least significant byte). -/
def quadBytes (entry : Nat) : Nat × Nat × Nat × Nat :=
  (entry / 16777216 % 256, entry / 65536 % 256, entry / 256 % 256, entry % 256)

/-! ## Logical pixel model

Pixel contents are modelled at the logical element level: a numpy array (or
the view `_wrap_bitmap_bits_in_array` returns, whose byte-level stride
arithmetic is verified separately above) is a shape, a dtype, and a total
function from `(x, y, channel)` to the element's raw bit pattern; for 2-D
arrays the channel index is 0. -/

structure NPArray where
  shape : List Nat
  dtype : Dtype
  data : Nat → Nat → Nat → Nat

/-- A loaded or freshly allocated FreeImage bitmap, as seen through the
introspection calls the Python layer makes: dimensions, image type tag, bits
per pixel, the logical pixel store (indexed top-down, as established by the
negative-stride view), and the palette contents if one was installed. -/
structure Bitmap where
  width : Nat
  height : Nat
  fi_type : Nat
  bpp : Nat
  store : Nat → Nat → Nat → Nat
  palette : Option (List Nat)

/-- `FI_TYPES.get_type_and_shape`: resolve a bitmap's numpy dtype and shape
from its FreeImage type tag (and for `FIT_BITMAP`, its bits-per-pixel). -/
def get_type_and_shape (b : Bitmap) : Except Err (Dtype × List Nat) :=
  if b.fi_type = 0 then .error .unsupportedFormat  -- 'Unknown image pixel type'
  else
    match dtypes b.fi_type with
    | none => .error .keyError
    | some dtype =>
      if b.fi_type = FIT_BITMAP then
        if b.bpp = 8 then .ok (dtype, [b.width, b.height])
        else if b.bpp = 24 then .ok (dtype, [b.width, b.height, 3])
        else if b.bpp = 32 then .ok (dtype, [b.width, b.height, 4])
        else .error .unsupportedFormat  -- 'Cannot convert %d BPP bitmap'
      else
        match extra_dims b.fi_type with
        | none => .error .keyError
        | some ed => .ok (dtype, [b.width, b.height] ++ ed)

/-- `_array_from_bitmap`: materialize a bitmap as an owned array.  On a
little-endian runtime (`le`), 3-D uint8 data has channels 0 and 2 swapped
(BGR[A] → RGB[A]); the final `.copy(order='k')` detaches the result, which
at the logical level is the identity. -/
def _array_from_bitmap (le : Bool) (b : Bitmap) : Except Err NPArray :=
  match get_type_and_shape b with
  | .error e => .error e
  | .ok (dtype, shape) =>
    let array : Nat → Nat → Nat → Nat :=
      if shape.length = 3 ∧ le = true ∧ dtype = .uint8 then
        fun x y c =>
          if c = 0 then b.store x y 2
          else if c = 2 then b.store x y 0
          else b.store x y c
      else b.store
    .ok { shape := shape, dtype := dtype, data := array }

/-- Events recording the Python layer's calls into the external decoder's
resource API.  `load`/`alloc` are emitted only when the decoder hands out a
non-null handle; `lock i` only when page `i` locks successfully. -/
inductive Ev where
  | load | alloc | unload | openMulti | closeMulti
  | lock (i : Nat) | unlock (i : Nat)
  deriving DecidableEq, Repr

/-- `_array_to_bitmap`: allocate a bitmap and copy a numpy array into it,
returning the bitmap and its FreeImage type tag, together with the trace of
resource events (`alloc` when `FreeImage_AllocateT` returns non-null,
`unload` when the `except` clause unloads after a failure inside the `try`).
`allocOk` models whether `FreeImage_AllocateT` returns a handle and
`paletteAvail` whether `FreeImage_GetPalette` returns a non-null buffer. -/
def _array_to_bitmap (le allocOk paletteAvail : Bool) (array : NPArray) :
    Except Err (Bitmap × Nat) × List Ev :=
  let shape := array.shape
  let dtype := array.dtype
  if shape.length = 2 ∨ shape.length = 3 then
    let nchannels := if shape.length = 2 then 1 else shape[2]!
    match fi_types dtype nchannels with
    | none => (.error .unsupportedFormat, [])  -- KeyError → 'Cannot write arrays of given type and shape.'
    | some fi_type =>
      let itemsize := dtype.itemsize
      let bpp := 8 * itemsize * nchannels
      let width := shape[0]!
      let height := shape[1]!
      if ¬allocOk then (.error .allocationError, [])  -- 'Could not allocate image for storage'
      else
        -- handle allocated; from here every failure unloads it (except clause)
        if shape.length = 3 ∧ le = true ∧ dtype = .uint8 then
          if nchannels < 3 then
            -- `array[:, :, 2]` raises IndexError: channel axis too short
            (.error .indexError, [.alloc, .unload])
          else
            let store : Nat → Nat → Nat → Nat := fun x y c =>
              if c = 0 then array.data x y 2
              else if c = 2 then array.data x y 0
              else array.data x y c
            -- len(shape) == 3, so the 2-D grey-palette branch is not taken
            (.ok ({ width := width, height := height, fi_type := fi_type,
                    bpp := bpp, store := store, palette := none }, fi_type),
             [.alloc])
        else
          let store := array.data
          if shape.length = 2 ∧ dtype = .uint8 then
            if paletteAvail then
              (.ok ({ width := width, height := height, fi_type := fi_type,
                      bpp := bpp, store := store,
                      palette := some _GREY_PALETTE }, fi_type),
               [.alloc])
            else (.error .allocationError, [.alloc, .unload])  -- 'Could not get image palette'
          else
            (.ok ({ width := width, height := height, fi_type := fi_type,
                    bpp := bpp, store := store, palette := none }, fi_type),
             [.alloc])
  else
    (.error .invalidShape, [])

/-- `write`: deduce the target file type, build a bitmap from the array,
check export capability, save, and unload the bitmap in the `finally`.
`ftypeKnown` models `FreeImage_GetFIFFromFilename != -1`, `canWrite` the
export-capability query and `saveOk` `FreeImage_Save`'s return value. -/
def write (le ftypeKnown allocOk paletteAvail canWrite saveOk : Bool)
    (array : NPArray) : Except Err Unit × List Ev :=
  if ¬ftypeKnown then (.error .unknownFileType, [])
  else
    match _array_to_bitmap le allocOk paletteAvail array with
    | (.error e, tr) => (.error e, tr)
    | (.ok _, tr) =>
      -- try: capability check, save; finally: unload
      if ¬canWrite then (.error .incompatibleFormat, tr ++ [.unload])
      else if ¬saveOk then (.error .saveFailed, tr ++ [.unload])
      else (.ok (), tr ++ [.unload])

/-- `_process_bitmap`: sniff the file type, load the bitmap, run
`process` under try/finally with `FreeImage_Unload` in the `finally`.
`ftypeKnown` models `FreeImage_GetFileType != -1`, `loadOk` whether
`FreeImage_Load` returns a non-null handle (with contents `b`). -/
def _process_bitmap {α : Type} (ftypeKnown loadOk : Bool) (b : Bitmap)
    (process : Bitmap → Except Err α) : Except Err α × List Ev :=
  if ¬ftypeKnown then (.error .unknownFileType, [])
  else if ¬loadOk then (.error .loadFailed, [])
  else (process b, [.load, .unload])

/-- `read`: `_process_bitmap` driving `_array_from_bitmap`. -/
def read (le ftypeKnown loadOk : Bool) (b : Bitmap) :
    Except Err NPArray × List Ev :=
  _process_bitmap ftypeKnown loadOk b (_array_from_bitmap le)

/-- Page loop of `_process_multipage`: page `i`'s entry is `none` when
`FreeImage_LockPage` returns null (the code raises without an unlock, as
nothing was acquired) and `some b` when it locks bitmap `b`.  Each locked
page is unlocked in a `finally`; a failing page's error propagates. -/
def _process_multipage_go {α : Type} (process : Bitmap → Except Err α) :
    List (Option Bitmap) → Nat → Except Err (List α) × List Ev
  | [], _ => (.ok [], [])
  | none :: _, _ => (.error .loadFailed, [])  -- 'Could not open ... as a multi-page image.'
  | some b :: rest, i =>
    match process b with
    | .error e => (.error e, [.lock i, .unlock i])
    | .ok v =>
      let (r, tr) := _process_multipage_go process rest (i + 1)
      (match r with
       | .ok vs => .ok (v :: vs)
       | .error e => .error e,
       [.lock i, .unlock i] ++ tr)

/-- `_process_multipage`: open the multi-bitmap session, process every page
(locking and unlocking each), and close the session in the outer `finally`.
`openOk` models whether `FreeImage_OpenMultiBitmap` returns non-null. -/
def _process_multipage {α : Type} (ftypeKnown openOk : Bool)
    (pages : List (Option Bitmap)) (process : Bitmap → Except Err α) :
    Except Err (List α) × List Ev :=
  if ¬ftypeKnown then (.error .unknownFileType, [])
  else if ¬openOk then (.error .loadFailed, [])
  else
    let (r, tr) := _process_multipage_go process pages 0
    (r, [.openMulti] ++ tr ++ [.closeMulti])

/-- `read_multipage`: `_process_multipage` driving `_array_from_bitmap`. -/
def read_multipage (le ftypeKnown openOk : Bool)
    (pages : List (Option Bitmap)) : Except Err (List NPArray) × List Ev :=
  _process_multipage ftypeKnown openOk pages (_array_from_bitmap le)

/-! ## Metadata extraction (`_read_metadata`, `METADATA_DATATYPE`) -/

def FIDT_BYTE : Nat := 1
def FIDT_ASCII : Nat := 2
def FIDT_SHORT : Nat := 3
def FIDT_LONG : Nat := 4
def FIDT_RATIONAL : Nat := 5
def FIDT_SBYTE : Nat := 6
def FIDT_UNDEFINED : Nat := 7
def FIDT_SSHORT : Nat := 8
def FIDT_SLONG : Nat := 9
def FIDT_SRATIONAL : Nat := 10
def FIDT_FLOAT : Nat := 11
def FIDT_DOUBLE : Nat := 12
def FIDT_IFD : Nat := 13
def FIDT_PALETTE : Nat := 14
def FIDT_LONG8 : Nat := 16
def FIDT_SLONG8 : Nat := 17
def FIDT_IFD8 : Nat := 18

/-- The decoded value layout registered for a metadata tag type: a plain
fixed-width numeric element, a (numerator, denominator) record of two
fixed-width fields, or an RGBA byte quad. -/
inductive MDLayout where
  | scalarWidth (w : Nat)
  | rational (w : Nat)
  | palette
  deriving DecidableEq, Repr

/-- Byte width of one element of the layout (numpy itemsize). -/
def MDLayout.itemsize : MDLayout → Nat
  | .scalarWidth w => w
  | .rational w => 2 * w
  | .palette => 4

/-- `METADATA_DATATYPE.dtypes`: tag type code → registered value layout.
`FIDT_ASCII` is deliberately absent (handled by a separate branch); an
unregistered code is a dict KeyError. -/
def METADATA_DATATYPE_dtypes (tag_type : Nat) : Option MDLayout :=
  if tag_type = FIDT_BYTE then some (.scalarWidth 1)
  else if tag_type = FIDT_SHORT then some (.scalarWidth 2)
  else if tag_type = FIDT_LONG then some (.scalarWidth 4)
  else if tag_type = FIDT_RATIONAL then some (.rational 4)
  else if tag_type = FIDT_SBYTE then some (.scalarWidth 1)
  else if tag_type = FIDT_UNDEFINED then some (.scalarWidth 1)
  else if tag_type = FIDT_SSHORT then some (.scalarWidth 2)
  else if tag_type = FIDT_SLONG then some (.scalarWidth 4)
  else if tag_type = FIDT_SRATIONAL then some (.rational 4)
  else if tag_type = FIDT_FLOAT then some (.scalarWidth 4)
  else if tag_type = FIDT_DOUBLE then some (.scalarWidth 8)
  else if tag_type = FIDT_IFD then some (.scalarWidth 4)
  else if tag_type = FIDT_PALETTE then some .palette
  else if tag_type = FIDT_LONG8 then some (.scalarWidth 8)
  else if tag_type = FIDT_SLONG8 then some (.scalarWidth 8)
  else if tag_type = FIDT_IFD8 then some (.scalarWidth 8)
  else none

/-- A metadata tag as read through the tag-introspection calls: key string,
type code and raw byte payload (`FreeImage_GetTagLength` bytes starting at
`FreeImage_GetTagValue`). -/
structure Tag where
  key : String
  tag_type : Nat
  payload : List Nat
  deriving DecidableEq, Repr

/-- Little-endian assembly of a byte list into one numeric bit pattern
(numpy reads elements in native byte order; we model the little-endian
runtime the rest of the file also models). -/
def lebytes (bs : List Nat) : Nat :=
  bs.foldr (fun b acc => b + 256 * acc) 0

/-- One decoded element of a metadata tag value. -/
inductive TagElem where
  | num (v : Nat)
  | rat (numerator denominator : Nat)
  | quad (r g b a : Nat)
  deriving DecidableEq, Repr

instance : Inhabited TagElem := ⟨.num 0⟩

/-- A decoded metadata tag value: text (for ASCII tags), a bare scalar, or
a sequence of elements. -/
inductive TagValue where
  | text (s : List Nat)
  | scalar (e : TagElem)
  | seq (es : List TagElem)
  deriving DecidableEq, Repr

/-- Decode one `layout`-element from its byte chunk. -/
def decodeElem (layout : MDLayout) (bytes : List Nat) : TagElem :=
  match layout with
  | .scalarWidth _ => .num (lebytes bytes)
  | .rational w => .rat (lebytes (bytes.take w)) (lebytes (bytes.drop w))
  | .palette => .quad bytes[0]! bytes[1]! bytes[2]! bytes[3]!

/-- The tag-decoding step of `_read_metadata`'s loop body: an ASCII tag
decodes to `tag_str.value` (the bytes up to the first NUL terminator, which
strips the trailing terminator); any other tag decodes by
`numpy.fromstring` with the registered layout — a KeyError for an
unregistered type code, a ValueError when the byte length is not a multiple
of the element width, and otherwise a sequence of elements that collapses
to a bare scalar when exactly one element results. -/
def decode_tag_value (tag_type : Nat) (payload : List Nat) :
    Except Err TagValue :=
  if tag_type = FIDT_ASCII then
    .ok (.text (payload.takeWhile (fun b => b ≠ 0)))
  else
    match METADATA_DATATYPE_dtypes tag_type with
    | none => .error .keyError
    | some layout =>
      let w := layout.itemsize
      if payload.length % w ≠ 0 then .error .decodeError
      else
        let n := payload.length / w
        let es := (List.range n).map
          (fun i => decodeElem layout ((payload.drop (i * w)).take w))
        if n = 1 then .ok (.scalar es[0]!)
        else .ok (.seq es)

/-- Decode a cursor's tags in order; the first failing tag's error
propagates (aborting the loop). -/
def decodeTags : List Tag → Except Err (List (String × TagValue))
  | [] => .ok []
  | t :: ts =>
    match decode_tag_value t.tag_type t.payload with
    | .error e => .error e
    | .ok v =>
      match decodeTags ts with
      | .error e => .error e
      | .ok rest => .ok ((t.key, v) :: rest)

/-- Cursor events for one metadata model's iteration. -/
inductive MEv where
  | openCursor | closeCursor
  deriving DecidableEq, Repr

/-- One model's processing in `_read_metadata`: `mdhandle = none` models a
null `FreeImage_FindFirstMetadata` handle (model skipped, no cursor); with
a cursor, the while loop decodes each yielded tag and, after normal
exhaustion, calls `FreeImage_FindCloseMetadata`.  There is no try/finally
around the loop, so a decode error propagates with the close skipped. -/
def _read_metadata_model (mdhandle : Option (List Tag)) :
    Except Err (List (String × TagValue)) × List MEv :=
  match mdhandle with
  | none => (.ok [], [])
  | some tags =>
    match decodeTags tags with
    | .ok pairs => (.ok pairs, [.openCursor, .closeCursor])
    | .error e => (.error e, [.openCursor])

/-- `_read_metadata` over the model list: each model contributes its pairs
keyed by model name; a failing model's error aborts the whole extraction. -/
def _read_metadata :
    List (String × Option (List Tag)) →
    Except Err (List ((String × String) × TagValue)) × List MEv
  | [] => (.ok [], [])
  | (name, it) :: rest =>
    match _read_metadata_model it with
    | (.error e, tr) => (.error e, tr)
    | (.ok pairs, tr) =>
      let (r, tr2) := _read_metadata rest
      (match r with
       | .ok m => .ok (pairs.map (fun kv => ((name, kv.1), kv.2)) ++ m)
       | .error e => .error e,
       tr ++ tr2)

/-- The error kinds named by the spec's §7 taxonomy (the Python layer's
`indexError` and `keyError` are not among them). -/
def specErrorKinds : List Err :=
  [.unknownFileType, .loadFailed, .saveFailed, .allocationError,
   .unsupportedFormat, .invalidShape, .incompatibleFormat]

/-! # Theorems -/

/-- **C3**: for every view built by `_wrap_bitmap_bits_in_array` over a
bitmap with height `h`, row pitch `p` and element size `s`, the starting
offset is `p * (h - 1)` bytes, the height-axis stride is `-p`, the remaining
strides are `(c * s)` for the width axis and `s` for the channel axis when a
channel axis exists, or `(s, -p)` for a 2-D shape; hence logical row 0 lies
at byte `p * (h - 1)` (the physically last stored scanline) and logical row
`h - 1` at byte 0. -/
theorem c3_view_strides (p s w h c : Nat) :
    (_wrap_bitmap_bits_in_array p [w, h, c] s).offset = (p * (h - 1) : Nat) ∧
    (_wrap_bitmap_bits_in_array p [w, h, c] s).strides
      = [((c * s : Nat) : Int), -(p : Int), ((s : Nat) : Int)] ∧
    (_wrap_bitmap_bits_in_array p [w, h] s).offset = (p * (h - 1) : Nat) ∧
    (_wrap_bitmap_bits_in_array p [w, h] s).strides
      = [((s : Nat) : Int), -(p : Int)] ∧
    rowAddress (_wrap_bitmap_bits_in_array p [w, h, c] s) 0
      = (p * (h - 1) : Nat) ∧
    rowAddress (_wrap_bitmap_bits_in_array p [w, h, c] s) (h - 1) = 0 ∧
    rowAddress (_wrap_bitmap_bits_in_array p [w, h] s) 0
      = (p * (h - 1) : Nat) ∧
    rowAddress (_wrap_bitmap_bits_in_array p [w, h] s) (h - 1) = 0 := by
  unfold _wrap_bitmap_bits_in_array rowAddress
  norm_num
  ring

/-- **C5**: for every array of rank 2 or 3 whose (dtype, channel count)
pair is absent from `FI_TYPES.fi_types`, `write` fails with the
`UnsupportedFormat` error kind (no bitmap is ever allocated, so nothing is
leaked and nothing is silently converted), and the registry lookup accepts
only exact (dtype, channel-count) identity: it succeeds precisely on the
pairs literally listed in the table. -/
theorem c5_unsupported_format (array : NPArray)
    (le allocOk paletteAvail canWrite saveOk : Bool)
    (hrank : array.shape.length = 2 ∨ array.shape.length = 3)
    (hreg : fi_types array.dtype
      (if array.shape.length = 2 then 1 else array.shape[2]!) = none) :
    write le true allocOk paletteAvail canWrite saveOk array
      = (.error .unsupportedFormat, []) ∧
    (∀ d : Dtype, ∀ n : Nat, (fi_types d n).isSome ↔ (d, n) ∈ fi_types_keys) := by
  constructor
  · have hab : _array_to_bitmap le allocOk paletteAvail array
        = (.error .unsupportedFormat, []) := by
      unfold _array_to_bitmap
      rw [if_pos hrank]
      simp only [hreg]
    unfold write
    simp only [hab, not_true, Bool.not_eq_true, if_neg]
    norm_num
  · intro d n
    cases d <;>
      simp only [fi_types, fi_types_keys, List.mem_cons,
        List.not_mem_nil, or_false, Prod.mk.injEq] <;>
      split_ifs <;> simp_all

/-- Witness for C5: a 3-channel int16 array, an unregistered pair. -/
theorem c5_unsupported_format_witness :
    write true true true true true true
      ⟨[2, 2, 3], Dtype.int16, fun _ _ _ => 0⟩
      = (.error .unsupportedFormat, []) ∧
    (∀ d : Dtype, ∀ n : Nat, (fi_types d n).isSome ↔ (d, n) ∈ fi_types_keys) :=
  c5_unsupported_format ⟨[2, 2, 3], Dtype.int16, fun _ _ _ => 0⟩
    true true true true true (Or.inr (by decide)) (by decide)

/-- **C6**: `_GREY_PALETTE` has 256 four-byte (32-bit) entries and entry `v`
is the quad `(0, v, v, v)`; a successful `_array_to_bitmap` installs it
exactly when the array is 2-D (single-channel) with 8-bit elements; and a
missing palette buffer for such an array yields the `AllocationError` kind. -/
theorem c6_grey_palette :
    (_GREY_PALETTE.length = 256 ∧
      ∀ v : Nat, v < 256 →
        _GREY_PALETTE[v]! = v * 0x00010101 ∧
        quadBytes _GREY_PALETTE[v]! = (0, v, v, v)) ∧
    (∀ (le allocOk : Bool) (array : NPArray) (b : Bitmap) (t : Nat)
        (tr : List Ev),
      _array_to_bitmap le allocOk true array = (.ok (b, t), tr) →
      (b.palette = some _GREY_PALETTE ↔
        array.shape.length = 2 ∧ array.dtype = .uint8) ∧
      (¬(array.shape.length = 2 ∧ array.dtype = .uint8) → b.palette = none)) ∧
    (∀ (le : Bool) (array : NPArray),
      array.shape.length = 2 → array.dtype = .uint8 →
      _array_to_bitmap le true false array
        = (.error .allocationError, [.alloc, .unload])) := by
  have h256 : _GREY_PALETTE.length = 256 := by
    simp [_GREY_PALETTE]
  refine ⟨⟨h256, ?_⟩, ?_, ?_⟩
  · intro v hv
    have hval : _GREY_PALETTE[v]! = v * 0x00010101 := by
      have hlt : v < _GREY_PALETTE.length := by omega
      rw [getElem!_pos _GREY_PALETTE v hlt]
      simp [_GREY_PALETTE]
    refine ⟨hval, ?_⟩
    rw [hval]
    simp only [quadBytes, Prod.mk.injEq]
    have e3 : v * 65793 / 16777216 = 0 := by omega
    have e2 : v * 65793 / 65536 = v := by omega
    have e1 : v * 65793 / 256 = v * 257 := by omega
    refine ⟨by rw [e3], by rw [e2]; omega, by rw [e1]; omega, by omega⟩
  · intro le allocOk array b t tr hab
    simp only [_array_to_bitmap] at hab
    repeat' split at hab
    all_goals simp only [Prod.mk.injEq, Except.ok.injEq] at hab
    all_goals obtain ⟨⟨hb, -⟩, -⟩ := hab
    all_goals subst hb
    all_goals simp_all
  · intro le array h2 hd
    simp [_array_to_bitmap, h2, hd, fi_types]

/-- Witness for C6: palette entry 200, a successful 2-D uint8 write
installing the grey palette, and a 2-D uint8 write with the palette buffer
missing. -/
theorem c6_grey_palette_witness :
    (_GREY_PALETTE[200]! = 200 * 0x00010101 ∧
      quadBytes _GREY_PALETTE[200]! = (0, 200, 200, 200)) ∧
    (({ width := 2, height := 3, fi_type := FIT_BITMAP, bpp := 8 * 1 * 1,
        store := fun _ _ _ => (5 : Nat),
        palette := some _GREY_PALETTE } : Bitmap).palette
          = some _GREY_PALETTE ↔
      ([2, 3] : List Nat).length = 2 ∧ Dtype.uint8 = Dtype.uint8) ∧
    (_array_to_bitmap true true false ⟨[2, 3], Dtype.uint8, fun _ _ _ => 5⟩
      = (.error .allocationError, [.alloc, .unload])) :=
  ⟨c6_grey_palette.1.2 200 (by norm_num),
   (c6_grey_palette.2.1 false true ⟨[2, 3], Dtype.uint8, fun _ _ _ => 5⟩
     _ FIT_BITMAP [.alloc] rfl).1,
   c6_grey_palette.2.2 true ⟨[2, 3], Dtype.uint8, fun _ _ _ => 5⟩ rfl rfl⟩

/-- **C10**: on a little-endian runtime, writing a 3-D uint8 array of shape
(w, h, 1) neither succeeds nor fails with one of the spec's error kinds:
(uint8, 1) is registered, so allocation proceeds, but the write-path channel
reorder indexes channel 2 of the 1-channel array, so the operation fails
with the out-of-range `indexError` — and the allocated handle is still
unloaded exactly once before the error propagates. -/
theorem c10_write_3d_single_channel_uint8 (w h : Nat)
    (data : Nat → Nat → Nat → Nat) (paletteAvail canWrite saveOk : Bool) :
    fi_types .uint8 1 = some FIT_BITMAP ∧
    write true true true paletteAvail canWrite saveOk ⟨[w, h, 1], .uint8, data⟩
      = (.error .indexError, [.alloc, .unload]) ∧
    Err.indexError ∉ specErrorKinds := by
  refine ⟨rfl, ?_, by decide⟩
  simp [write, _array_to_bitmap, fi_types]

set_option maxHeartbeats 2000000 in
/-- Every extra-dimension list in `FI_TYPES.extra_dims` is `[]`, `[3]` or
`[4]`. -/
theorem extra_dims_cases (ft : Nat) (ed : List Nat)
    (h : extra_dims ft = some ed) : ed = [] ∨ ed = [3] ∨ ed = [4] := by
  simp only [extra_dims, FIT_UINT16, FIT_INT16, FIT_UINT32, FIT_INT32,
    FIT_FLOAT, FIT_DOUBLE, FIT_COMPLEX, FIT_RGB16, FIT_RGBA16, FIT_RGBF,
    FIT_RGBAF] at h
  repeat' split at h
  all_goals try exact Option.noConfusion h
  all_goals injection h with h
  all_goals subst h
  all_goals simp

/-- A shape produced by `get_type_and_shape` is `[w, h]`, `[w, h, 3]` or
`[w, h, 4]`; in particular a rank-3 shape has 3 or 4 channels. -/
theorem get_type_and_shape_shape (b : Bitmap) (dtype : Dtype)
    (shape : List Nat) (h : get_type_and_shape b = .ok (dtype, shape)) :
    shape = [b.width, b.height] ∨ shape = [b.width, b.height, 3] ∨
      shape = [b.width, b.height, 4] := by
  unfold get_type_and_shape at h
  repeat' split at h
  all_goals try exact Except.noConfusion h
  all_goals rw [Except.ok.injEq, Prod.mk.injEq] at h
  all_goals obtain ⟨-, hs⟩ := h
  all_goals subst hs
  · exact Or.inl rfl
  · exact Or.inr (Or.inl rfl)
  · exact Or.inr (Or.inr rfl)
  · rename_i ed hed
    rcases extra_dims_cases _ _ hed with h | h | h <;> rw [h] <;> simp

/-- **C4**: on the read path, for an image resolved to 8-bit unsigned
elements with a channel axis (which `get_type_and_shape` only produces
with 3 or 4 channels): on a little-endian runtime the materialized array's
channel 0 equals the decoder store's channel 2 and channel 2 the store's
channel 0, while channels 1 and 3 pass through unchanged; on a big-endian
runtime no swap occurs; and for every other element type or shape no
reordering is performed at all. -/
theorem c4_read_channel_swap (le : Bool) (b : Bitmap) (dtype : Dtype)
    (shape : List Nat) (out : NPArray)
    (hgts : get_type_and_shape b = .ok (dtype, shape))
    (hread : _array_from_bitmap le b = .ok out) :
    out.shape = shape ∧ out.dtype = dtype ∧
    (shape.length = 3 → shape[2]! = 3 ∨ shape[2]! = 4) ∧
    ((shape.length = 3 ∧ le = true ∧ dtype = .uint8) →
      ∀ x y, out.data x y 0 = b.store x y 2 ∧ out.data x y 2 = b.store x y 0 ∧
        out.data x y 1 = b.store x y 1 ∧ out.data x y 3 = b.store x y 3) ∧
    (¬(shape.length = 3 ∧ le = true ∧ dtype = .uint8) →
      out.data = b.store) := by
  have hch : shape.length = 3 → shape[2]! = 3 ∨ shape[2]! = 4 := by
    intro h3
    rcases get_type_and_shape_shape b dtype shape hgts with h | h | h <;>
      subst h <;> simp_all
  simp only [_array_from_bitmap, hgts] at hread
  by_cases hc : shape.length = 3 ∧ le = true ∧ dtype = Dtype.uint8
  · rw [if_pos hc] at hread
    obtain rfl := (Except.ok.injEq _ _).mp hread
    exact ⟨rfl, rfl, hch, fun _ x y => ⟨rfl, rfl, rfl, rfl⟩,
      fun hnc => absurd hc hnc⟩
  · rw [if_neg hc] at hread
    obtain rfl := (Except.ok.injEq _ _).mp hread
    exact ⟨rfl, rfl, hch, fun hcc => absurd hcc hc, fun _ => rfl⟩

/-- Witness for C4: a 2×2 little-endian 24-bit BGR bitmap whose channels 0
and 2 are swapped by the read path. -/
theorem c4_read_channel_swap_witness :
    ∃ out, _array_from_bitmap true
        ⟨2, 2, FIT_BITMAP, 24, fun x y c => x + 10 * y + 100 * c, none⟩
        = .ok out ∧
      out.shape = [2, 2, 3] ∧ out.dtype = Dtype.uint8 ∧
      out.data 0 0 0 = 200 ∧ out.data 0 0 2 = 0 ∧ out.data 0 0 1 = 100 := by
  refine ⟨_, rfl, ?_⟩
  have h := c4_read_channel_swap true
    ⟨2, 2, FIT_BITMAP, 24, fun x y c => x + 10 * y + 100 * c, none⟩
    Dtype.uint8 [2, 2, 3] _ rfl rfl
  obtain ⟨hs, hd, -, hswap, -⟩ := h
  obtain ⟨h0, h2, h1, -⟩ := hswap (by simp) 0 0
  exact ⟨hs, hd, by rw [h0], by rw [h2], by rw [h1]⟩

/-- In `_array_to_bitmap`'s trace, the unload count plus one-if-successful
equals the alloc count: on failure after a successful allocation the
`except` clause unloads; on success the caller's `finally` still owes one
unload. -/
theorem arrayToBitmap_unload_alloc (le allocOk paletteAvail : Bool)
    (array : NPArray) :
    ∀ res tr, _array_to_bitmap le allocOk paletteAvail array = (res, tr) →
      (tr.count Ev.unload +
          (match res with | .ok _ => 1 | .error _ => 0)) = tr.count Ev.alloc ∧
      tr.count Ev.alloc ≤ 1 := by
  intro res tr hab
  simp only [_array_to_bitmap] at hab
  repeat' split at hab
  all_goals obtain ⟨rfl, rfl⟩ := (Prod.mk.injEq ..).mp hab
  all_goals simp [List.count_cons, List.count_nil]

/-- **C2**: for every execution of `read` or `write` (over all decoder
responses: file-type sniffing, load/allocation success, palette
availability, capability query, save result, and any processing outcome),
the number of `unload` calls in the trace equals the number of handles the
decoder handed out (`load`/`alloc` events, emitted only for non-null
returns), and at most one handle is handed out — i.e. every handle is
released exactly once, on success and on every error path. -/
theorem c2_handle_released_once {α : Type} (le ftypeKnown loadOk allocOk
    paletteAvail canWrite saveOk : Bool) (b : Bitmap) (array : NPArray)
    (process : Bitmap → Except Err α) :
    ((_process_bitmap ftypeKnown loadOk b process).2.count Ev.unload =
        (_process_bitmap ftypeKnown loadOk b process).2.count Ev.load ∧
      (_process_bitmap ftypeKnown loadOk b process).2.count Ev.load ≤ 1) ∧
    ((write le ftypeKnown allocOk paletteAvail canWrite saveOk array).2.count
        Ev.unload =
      (write le ftypeKnown allocOk paletteAvail canWrite saveOk
        array).2.count Ev.alloc ∧
      (write le ftypeKnown allocOk paletteAvail canWrite saveOk
        array).2.count Ev.alloc ≤ 1) := by
  constructor
  · unfold _process_bitmap
    split_ifs <;> simp [List.count_cons]
  · rcases hab : _array_to_bitmap le allocOk paletteAvail array with ⟨res, tr⟩
    obtain ⟨h, halloc⟩ :=
      arrayToBitmap_unload_alloc le allocOk paletteAvail array res tr hab
    unfold write
    rw [hab]
    cases res with
    | error e =>
      simp only [Nat.add_zero] at h
      split_ifs <;> simp [h, halloc]
    | ok v =>
      simp only at h
      split_ifs <;> simp [List.count_append, List.count_cons] <;> omega

/-- Lock and unlock events are balanced in the page loop's trace, page by
page: the loop unlocks every page it successfully locks. -/
theorem multipage_go_balanced {α : Type} (process : Bitmap → Except Err α) :
    ∀ (pages : List (Option Bitmap)) (i j : Nat),
      (_process_multipage_go process pages i).2.count (Ev.lock j) =
        (_process_multipage_go process pages i).2.count (Ev.unlock j) := by
  intro pages
  induction pages with
  | nil => intro i j; simp [_process_multipage_go]
  | cons p rest ih =>
    intro i j
    cases p with
    | none => simp [_process_multipage_go]
    | some b =>
      simp only [_process_multipage_go]
      rcases hp : process b with e | v
      · simp [List.count_cons]
      · rcases hgo : _process_multipage_go process rest (i + 1) with ⟨r, tr⟩
        have hih := ih (i + 1) j
        rw [hgo] at hih
        simp only at hih
        simp [List.count_cons, List.count_append, hih]

/-- When every page before index `pre.length` locks and processes
successfully and the page there processes to an error, the page loop
returns that error and its trace still unlocks the failing page. -/
theorem multipage_go_fail {α : Type} (process : Bitmap → Except Err α)
    (rest : List (Option Bitmap)) (b : Bitmap) (e : Err)
    (hb : process b = .error e) :
    ∀ (pre : List (Option Bitmap)),
      (∀ ob ∈ pre, ∃ bb, ob = some bb ∧ ∃ v, process bb = .ok v) →
      ∀ i,
        (_process_multipage_go process (pre ++ some b :: rest) i).1
          = .error e ∧
        Ev.unlock (i + pre.length) ∈
          (_process_multipage_go process (pre ++ some b :: rest) i).2 := by
  intro pre
  induction pre with
  | nil =>
    intro _ i
    simp [_process_multipage_go, hb]
  | cons p pre' ih =>
    intro hpre i
    obtain ⟨bb, rfl, v, hv⟩ := hpre p (List.mem_cons_self ..)
    have hih := ih (fun ob hob => hpre ob (List.mem_cons_of_mem _ hob)) (i + 1)
    simp only [List.cons_append, _process_multipage_go, hv]
    rcases hgo : _process_multipage_go process (pre' ++ some b :: rest)
        (i + 1) with ⟨r, tr⟩
    rw [hgo] at hih
    simp only at hih
    obtain ⟨hr, hm⟩ := hih
    subst hr
    refine ⟨rfl, ?_⟩
    simp only [List.length_cons]
    have harith : i + (pre'.length + 1) = i + 1 + pre'.length := by omega
    rw [harith]
    exact List.mem_cons_of_mem _ (List.mem_cons_of_mem _ (by simpa using hm))

/-- **C7**: multi-page reads are atomic all-or-nothing: when processing the
page at index `pre.length` fails (all earlier pages succeeding), the
failing page is unlocked, every locked page is unlocked, the session is
closed — with the close as the final action before the error propagates —
and the caller receives the error, never a partial list of pages. -/
theorem c7_multipage_atomic {α : Type} (process : Bitmap → Except Err α)
    (pre rest : List (Option Bitmap)) (b : Bitmap) (e : Err)
    (hpre : ∀ ob ∈ pre, ∃ bb, ob = some bb ∧ ∃ v, process bb = .ok v)
    (hb : process b = .error e) :
    (_process_multipage true true (pre ++ some b :: rest) process).1
      = .error e ∧
    (∀ l, (_process_multipage true true (pre ++ some b :: rest) process).1
      ≠ .ok l) ∧
    Ev.unlock pre.length ∈
      (_process_multipage true true (pre ++ some b :: rest) process).2 ∧
    (_process_multipage true true (pre ++ some b :: rest) process).2.getLast?
      = some Ev.closeMulti ∧
    (∀ j, (_process_multipage true true (pre ++ some b :: rest)
        process).2.count (Ev.lock j) =
      (_process_multipage true true (pre ++ some b :: rest)
        process).2.count (Ev.unlock j)) := by
  obtain ⟨hres, hmem⟩ := multipage_go_fail process rest b e hb pre hpre 0
  have hbal := multipage_go_balanced process (pre ++ some b :: rest) 0
  rcases hgo : _process_multipage_go process (pre ++ some b :: rest) 0
      with ⟨r, tr⟩
  rw [hgo] at hres hmem
  simp only at hres hmem
  subst hres
  have hmp : _process_multipage true true (pre ++ some b :: rest) process
      = (.error e, Ev.openMulti :: (tr ++ [Ev.closeMulti])) := by
    unfold _process_multipage
    rw [hgo]
    simp
  rw [Nat.zero_add] at hmem
  refine ⟨by rw [hmp], fun l => by rw [hmp]; simp, ?_, ?_, ?_⟩
  · rw [hmp]
    exact List.mem_cons_of_mem _ (List.mem_append_left _ hmem)
  · rw [hmp]
    show (Ev.openMulti :: (tr ++ [Ev.closeMulti])).getLast? = some Ev.closeMulti
    rw [show Ev.openMulti :: (tr ++ [Ev.closeMulti]) =
      (Ev.openMulti :: tr) ++ [Ev.closeMulti] from by simp]
    exact List.getLast?_concat _
  · intro j
    have hb' := hbal j
    rw [hgo] at hb'
    simp only at hb'
    rw [hmp]
    simp [List.count_cons, List.count_append, hb']

/-- Witness for C7: a single-page session whose only page fails to
process. -/
theorem c7_multipage_atomic_witness :
    (_process_multipage true true [some ⟨1, 1, 0, 8, fun _ _ _ => 0, none⟩]
      (fun _ => (.error .unsupportedFormat : Except Err Nat))).1
      = .error .unsupportedFormat ∧
    Ev.unlock 0 ∈
      (_process_multipage true true [some ⟨1, 1, 0, 8, fun _ _ _ => 0, none⟩]
        (fun _ => (.error .unsupportedFormat : Except Err Nat))).2 ∧
    (_process_multipage true true [some ⟨1, 1, 0, 8, fun _ _ _ => 0, none⟩]
      (fun _ => (.error .unsupportedFormat : Except Err Nat))).2.getLast?
      = some Ev.closeMulti := by
  have h := c7_multipage_atomic
    (fun _ => (.error .unsupportedFormat : Except Err Nat)) [] []
    ⟨1, 1, 0, 8, fun _ _ _ => 0, none⟩ .unsupportedFormat
    (fun ob hob => absurd hob (List.not_mem_nil _)) rfl
  exact ⟨h.1, h.2.2.1, h.2.2.2.1⟩

/-- **C8** counterexample: a metadata model whose cursor yields a tag with
an unregistered type code (0): the decode error propagates and the trace
contains no `closeCursor` — the source has no try/finally around the tag
loop, so `FreeImage_FindCloseMetadata` is skipped on error. -/
theorem c8_counterexample :
    (_read_metadata_model (some [⟨"BadTag", 0, []⟩])).1
      = .error .keyError ∧
    (_read_metadata_model (some [⟨"BadTag", 0, []⟩])).2 = [.openCursor] ∧
    MEv.closeCursor ∉ (_read_metadata_model (some [⟨"BadTag", 0, []⟩])).2 := by
  refine ⟨rfl, rfl, ?_⟩
  intro hmem
  rw [show (_read_metadata_model (some [⟨"BadTag", 0, []⟩])).2
      = [MEv.openCursor] from rfl] at hmem
  simp at hmem

/-- **C8** amended: the per-model iteration cursor is closed when tag
iteration exhausts normally; when an error occurs while decoding a tag of
that model, the error propagates with the cursor left unclosed (and a model
with no first tag opens no cursor at all). -/
theorem c8_cursor_close_amended (tags : List Tag) :
    (∀ pairs, decodeTags tags = .ok pairs →
      (_read_metadata_model (some tags)).2 = [.openCursor, .closeCursor]) ∧
    (∀ e, decodeTags tags = .error e →
      (_read_metadata_model (some tags)).2 = [.openCursor]) ∧
    (_read_metadata_model none).2 = [] := by
  refine ⟨?_, ?_, rfl⟩
  · intro pairs h
    simp [_read_metadata_model, h]
  · intro e h
    simp [_read_metadata_model, h]

/-- Witness for the amended C8: one ASCII tag decodes fine and the cursor
closes; one bad type code leaves the cursor open. -/
theorem c8_cursor_close_amended_witness :
    (_read_metadata_model (some [⟨"Artist", 2, [65, 0]⟩])).2
      = [.openCursor, .closeCursor] ∧
    (_read_metadata_model (some [⟨"Bad", 0, []⟩])).2 = [.openCursor] :=
  ⟨(c8_cursor_close_amended [⟨"Artist", 2, [65, 0]⟩]).1
      [("Artist", .text [65])] rfl,
   (c8_cursor_close_amended [⟨"Bad", 0, []⟩]).2.1 .keyError rfl⟩

/-- `takeWhile (≠ 0)` of a NUL-terminated byte list is the part before the
terminator. -/
theorem takeWhile_ne_zero_append (s : List Nat) (h : ∀ x ∈ s, x ≠ 0) :
    (s ++ [0]).takeWhile (fun b => b ≠ 0) = s := by
  induction s with
  | nil => simp [List.takeWhile]
  | cons a s ih =>
    have ha := h a (List.mem_cons_self ..)
    have ih' := ih (fun x hx => h x (List.mem_cons_of_mem _ hx))
    simp_all [List.takeWhile_cons]

set_option maxHeartbeats 2000000 in
/-- Every registered metadata layout has a positive element width. -/
theorem md_dtypes_itemsize_pos (t : Nat) (layout : MDLayout)
    (h : METADATA_DATATYPE_dtypes t = some layout) : 0 < layout.itemsize := by
  simp only [METADATA_DATATYPE_dtypes, FIDT_BYTE, FIDT_SHORT, FIDT_LONG,
    FIDT_RATIONAL, FIDT_SBYTE, FIDT_UNDEFINED, FIDT_SSHORT, FIDT_SLONG,
    FIDT_SRATIONAL, FIDT_FLOAT, FIDT_DOUBLE, FIDT_IFD, FIDT_PALETTE,
    FIDT_LONG8, FIDT_SLONG8, FIDT_IFD8] at h
  have ht : t < 19 := by
    by_contra hge
    push_neg at hge
    iterate 16 rw [if_neg (by omega)] at h
    exact Option.noConfusion h
  interval_cases t <;> cases h <;> decide

/-- **C9**: a tag of ASCII type decodes to a text value without the
trailing terminator byte; a tag of rational type decodes to a
(numerator, denominator) pair laid out as the registered two-u32 record; a
non-ASCII tag whose byte length equals exactly one element's width decodes
to a bare scalar; and one with `k ≥ 2` elements decodes to a sequence of
`k` elements of the registered fixed-width layout. -/
theorem c9_tag_decoding :
    (∀ s : List Nat, (∀ x ∈ s, x ≠ 0) →
      decode_tag_value FIDT_ASCII (s ++ [0]) = .ok (.text s)) ∧
    (∀ payload : List Nat, payload.length = 8 →
      decode_tag_value FIDT_RATIONAL payload
        = .ok (.scalar (.rat (lebytes (payload.take 4))
            (lebytes (payload.drop 4))))) ∧
    (∀ (t : Nat) (layout : MDLayout) (payload : List Nat),
      t ≠ FIDT_ASCII → METADATA_DATATYPE_dtypes t = some layout →
      payload.length = layout.itemsize →
      decode_tag_value t payload = .ok (.scalar (decodeElem layout payload))) ∧
    (∀ (t : Nat) (layout : MDLayout) (payload : List Nat) (k : Nat),
      t ≠ FIDT_ASCII → METADATA_DATATYPE_dtypes t = some layout →
      payload.length = k * layout.itemsize → 2 ≤ k →
      ∃ es, decode_tag_value t payload = .ok (.seq es) ∧ es.length = k ∧
        ∀ i, i < k → es[i]! = decodeElem layout
          ((payload.drop (i * layout.itemsize)).take layout.itemsize)) := by
  refine ⟨?_, ?_, ?_, ?_⟩
  · intro s hs
    have hval : decode_tag_value FIDT_ASCII (s ++ [0])
        = Except.ok (TagValue.text
            ((s ++ [0]).takeWhile (fun b => decide (b ≠ 0)))) := rfl
    rw [hval, takeWhile_ne_zero_append s hs]
  · intro payload hlen
    have h8 : payload.take 8 = payload := by
      rw [← hlen]
      exact List.take_length ..
    have hmd : METADATA_DATATYPE_dtypes FIDT_RATIONAL
        = some (.rational 4) := rfl
    simp only [decode_tag_value]
    rw [if_neg (by decide)]
    simp only [hmd, MDLayout.itemsize, hlen]
    norm_num [decodeElem]
    rw [show List.range 1 = [0] from by decide]
    simp [h8]
  · intro t layout payload ht hmd hlen
    have hw := md_dtypes_itemsize_pos t layout hmd
    have hmod : payload.length % layout.itemsize = 0 := by
      rw [hlen]; exact Nat.mod_self _
    have hdiv : payload.length / layout.itemsize = 1 := by
      rw [hlen]; exact Nat.div_self hw
    have htake : payload.take layout.itemsize = payload := by
      rw [← hlen]
      exact List.take_length ..
    simp only [decode_tag_value]
    rw [if_neg ht]
    simp only [hmd, hmod, hdiv]
    norm_num
    rw [show List.range 1 = [0] from by decide]
    simp [htake]
  · intro t layout payload k ht hmd hlen hk
    have hw := md_dtypes_itemsize_pos t layout hmd
    have hmod : payload.length % layout.itemsize = 0 := by
      rw [hlen]; exact Nat.mul_mod_left ..
    have hdiv : payload.length / layout.itemsize = k := by
      rw [hlen]; exact Nat.mul_div_cancel _ hw
    simp only [decode_tag_value]
    rw [if_neg ht]
    simp only [hmd, hmod, hdiv]
    rw [if_neg (by simp), if_neg (by omega)]
    refine ⟨_, rfl, by simp, ?_⟩
    intro i hi
    have hlt : i < ((List.range k).map (fun i => decodeElem layout
        ((payload.drop (i * layout.itemsize)).take layout.itemsize))).length := by
      simpa using hi
    rw [getElem!_pos ((List.range k).map (fun i => decodeElem layout
      ((payload.drop (i * layout.itemsize)).take layout.itemsize))) i hlt]
    simp

/-- Witness for C9: a NUL-terminated ASCII tag, an 8-byte rational tag, a
single uint16 element, and a two-element uint16 sequence. -/
theorem c9_tag_decoding_witness :
    decode_tag_value FIDT_ASCII [72, 105, 0] = .ok (.text [72, 105]) ∧
    decode_tag_value FIDT_RATIONAL [1, 0, 0, 0, 2, 0, 0, 0]
      = .ok (.scalar (.rat 1 2)) ∧
    decode_tag_value FIDT_SHORT [7, 0] = .ok (.scalar (.num 7)) ∧
    (∃ es, decode_tag_value FIDT_SHORT [7, 0, 1, 1] = .ok (.seq es) ∧
      es.length = 2 ∧ es[0]! = .num 7 ∧ es[1]! = .num 257) := by
  obtain ⟨ha, hr, hs, hq⟩ := c9_tag_decoding
  refine ⟨?_, ?_, ?_, ?_⟩
  · have := ha [72, 105] (by decide)
    simpa using this
  · have := hr [1, 0, 0, 0, 2, 0, 0, 0] rfl
    simpa [lebytes] using this
  · have := hs FIDT_SHORT (.scalarWidth 2) [7, 0] (by decide) rfl rfl
    simpa [decodeElem, lebytes] using this
  · obtain ⟨es, h1, h2, h3⟩ := hq FIDT_SHORT (.scalarWidth 2) [7, 0, 1, 1] 2
      (by decide) rfl rfl (le_refl 2)
    refine ⟨es, h1, h2, ?_, ?_⟩
    · have := h3 0 (by omega)
      simpa [decodeElem, lebytes] using this
    · have := h3 1 (by omega)
      simpa [decodeElem, lebytes] using this

set_option maxHeartbeats 2000000 in
/-- **C1**: for every registered (dtype, channel count) pair, writing an
array in OwnedArray layout (2-D for single-channel, 3-D with the
registered 3- or 4-channel axis — the shapes `read` itself produces) and
reading the resulting bitmap back yields an array equal to the original in
shape, dtype and every element bit pattern, on either endianness; the
external save/load of the bitmap is the identity absent lossy
compression. -/
theorem c1_write_read_roundtrip (le : Bool) (a : NPArray) (w h : Nat)
    (hshape : a.shape = [w, h] ∨ ∃ c, a.shape = [w, h, c] ∧ (c = 3 ∨ c = 4))
    (hreg : (fi_types a.dtype
      (if a.shape.length = 2 then 1 else a.shape[2]!)).isSome = true) :
    ∃ b t out,
      _array_to_bitmap le true true a = (.ok (b, t), [.alloc]) ∧
      _array_from_bitmap le b = .ok out ∧
      out.shape = a.shape ∧ out.dtype = a.dtype ∧
      ∀ x y cc, out.data x y cc = a.data x y cc := by
  obtain ⟨shape, dtype, data⟩ := a
  simp only at hreg ⊢
  rcases hshape with hs | ⟨c, hs, hc⟩
  · subst hs
    cases le <;> cases dtype <;>
      exact ⟨_, _, _, rfl, rfl, by simp, rfl, fun x y cc => rfl⟩
  · rcases hc with rfl | rfl <;> subst hs <;> cases le <;> cases dtype <;>
      first
      | exact Bool.noConfusion (show false = true from hreg)
      | exact ⟨_, _, _, rfl, rfl, by simp, rfl, fun x y cc => rfl⟩
      | (refine ⟨_, _, _, rfl, rfl, by simp, rfl, fun x y cc => ?_⟩
         by_cases h0 : cc = 0 <;> by_cases h2 : cc = 2 <;> simp [h0, h2])

/-- Witness for C1: a 2×2 RGB uint8 array round-trips through the swap
write and swap read. -/
theorem c1_write_read_roundtrip_witness :
    ∃ b t out,
      _array_to_bitmap true true true
          ⟨[2, 2, 3], Dtype.uint8, fun x y cc => x + 10 * y + 100 * cc⟩
        = (.ok (b, t), [.alloc]) ∧
      _array_from_bitmap true b = .ok out ∧
      out.shape = [2, 2, 3] ∧ out.dtype = Dtype.uint8 ∧
      ∀ x y cc, out.data x y cc = x + 10 * y + 100 * cc :=
  c1_write_read_roundtrip true
    ⟨[2, 2, 3], Dtype.uint8, fun x y cc => x + 10 * y + 100 * cc⟩ 2 2
    (Or.inr ⟨3, rfl, Or.inl rfl⟩) rfl

end FreeImagePy
